import Mathlib

/-!
Verification of the Product REST service (`service/routes.py`) against its
specification.  The route handlers are embedded shallowly as pure Lean
functions over an explicit store state.  The persistence layer
(`service/models.py` is not part of the sources; only its callers and tests
are) is modelled from the spec: a `find`/`all`/`create`/`update`/`delete`
capability over Product rows, with ids assigned by storage.
-/

namespace ProductService

/-- Modelled from the spec: `category` is "an enumerated value from a fixed
closed set" (`Category` in `service/models.py`, absent from the sources; the
tests name the member `TOOLS`). -/
inductive Category where
  | UNKNOWN
  | CLOTHS
  | FOOD
  | HOUSEWARES
  | AUTOMOTIVE
  | TOOLS
deriving DecidableEq

/-- The enum member's name, as used in JSON serialization and in the
`Category[...]` lookup of `list_products`. -/
def Category.label : Category → String
  | .UNKNOWN => "UNKNOWN"
  | .CLOTHS => "CLOTHS"
  | .FOOD => "FOOD"
  | .HOUSEWARES => "HOUSEWARES"
  | .AUTOMOTIVE => "AUTOMOTIVE"
  | .TOOLS => "TOOLS"

/-- All members of the closed enumeration. -/
def Category.members : List Category :=
  [.UNKNOWN, .CLOTHS, .FOOD, .HOUSEWARES, .AUTOMOTIVE, .TOOLS]

/-- Name-indexed member lookup, the embedding of Python's `Category[s]`
(raises `KeyError`, i.e. `none`, when `s` is not a member name). -/
def categoryFromString (s : String) : Option Category :=
  Category.members.find? (fun c => c.label == s)

/-- Embedding of Python's `str.upper()` (the category names are ASCII). -/
def strUpper (s : String) : String :=
  String.mk (s.data.map Char.toUpper)

/-- Embedding of Python's `str.lower()` (the compared availability literals
are ASCII). -/
def strLower (s : String) : String :=
  String.mk (s.data.map Char.toLower)

/-- A stored Product row: id (integer, generated on creation), name,
description, price (decimal, modelled as `Rat`), available, category. -/
structure Product where
  id : Nat
  name : String
  description : String
  price : Rat
  available : Bool
  category : Category
deriving DecidableEq

/-- The validated field content of a request body (everything but the id,
which storage assigns). -/
structure ProductData where
  name : String
  description : String
  price : Rat
  available : Bool
  category : Category
deriving DecidableEq

/-- A JSON request body for create/update.  Fields are optional because the
client may omit them; `ident` is a client-supplied "id" entry, which
deserialization ignores. -/
structure Body where
  ident : Option Nat := none
  name : Option String := none
  description : Option String := none
  price : Option Rat := none
  available : Option Bool := none
  category : Option String := none
deriving DecidableEq

/-- Modelled from the spec: `Product.deserialize` (in the absent
`service/models.py`) "validates the JSON body against required fields/types";
a missing field or a category outside the enumeration raises
`DataValidationError`.  The body's "id" entry is ignored: "id is immutable
after creation and assigned by storage". -/
def deserialize (b : Body) : Except String ProductData :=
  match b.name, b.description, b.price, b.available, b.category with
  | some n, some d, some p, some a, some c =>
    match categoryFromString c with
    | some cv => Except.ok ⟨n, d, p, a, cv⟩
    | none => Except.error "Invalid attribute: category"
  | _, _, _, _, _ => Except.error "Invalid product: missing field"

/-- The serialized (JSON) form of a Product: the category is rendered as its
member name. -/
structure ProductJson where
  id : Nat
  name : String
  description : String
  price : Rat
  available : Bool
  category : String
deriving DecidableEq

/-- Modelled from the spec: `Product.serialize` renders the entity's fields,
with the category as its name. -/
def serialize (p : Product) : ProductJson :=
  ⟨p.id, p.name, p.description, p.price, p.available, p.category.label⟩

/-- The relational store: the Product rows plus the next id the storage
layer will assign. -/
structure DB where
  rows : List Product
  nextId : Nat
deriving DecidableEq

/-- Modelled from the spec: `Product.find` retrieves the stored product with
the given id, if any. -/
def DB.find (db : DB) (pid : Nat) : Option Product :=
  db.rows.find? (fun p => p.id == pid)

/-- Modelled from the spec: `Product.create` assigns a new id ("assigned by
storage") and stores the row. -/
def DB.create (db : DB) (pd : ProductData) : Product × DB :=
  let p : Product := ⟨db.nextId, pd.name, pd.description, pd.price, pd.available, pd.category⟩
  (p, ⟨db.rows ++ [p], db.nextId + 1⟩)

/-- Modelled from the spec: `Product.update` replaces the stored row having
the product's id. -/
def DB.updateRow (db : DB) (p : Product) : DB :=
  ⟨db.rows.map (fun q => if q.id == p.id then p else q), db.nextId⟩

/-- Modelled from the spec: `Product.delete` removes the row with the given
id from the store. -/
def DB.deleteRow (db : DB) (pid : Nat) : DB :=
  ⟨db.rows.filter (fun q => q.id != pid), db.nextId⟩

/-- Modelled from the spec: `Product.all` returns every stored row. -/
def DB.all (db : DB) : List Product :=
  db.rows

/-- Modelled from the spec: `Product.find_by_name` — "exact name match". -/
def DB.find_by_name (db : DB) (n : String) : List Product :=
  db.rows.filter (fun p => p.name == n)

/-- Modelled from the spec: `Product.find_by_category`. -/
def DB.find_by_category (db : DB) (c : Category) : List Product :=
  db.rows.filter (fun p => p.category == c)

/-- Modelled from the spec: `Product.find_by_availability`. -/
def DB.find_by_availability (db : DB) (a : Bool) : List Product :=
  db.rows.filter (fun p => p.available == a)

/-- Storage invariant: every stored id was assigned by storage, hence is
below the next id to be assigned. -/
def DB.wf (db : DB) : Prop :=
  ∀ p ∈ db.rows, p.id < db.nextId

instance (db : DB) : Decidable db.wf :=
  inferInstanceAs (Decidable (∀ p ∈ db.rows, p.id < db.nextId))

/-- An HTTP response: status code, optional single-product body, list body
for the list endpoint, and the id carried by the Location header. -/
structure Response where
  status : Nat
  single : Option ProductJson := none
  results : List ProductJson := []
  location : Option Nat := none
deriving DecidableEq

/-- Embedding of `check_content_type` (routes.py:185-201): 415 unless the
Content-Type header is present and equals the expected media type. -/
def check_content_type (headers : Option String) (content_type : String) : Bool :=
  match headers with
  | none => false
  | some ct => ct == content_type

/-- Embedding of `create_products` (routes.py:47-72): check content type,
deserialize (400 on validation error), create, reply 201 with the serialized
product and a Location header for its id. -/
def create_products (ct : Option String) (body : Body) (db : DB) : Response × DB :=
  if check_content_type ct "application/json" then
    match deserialize body with
    | Except.ok pd =>
      let r := db.create pd
      ({ status := 201, single := some (serialize r.1), location := some r.1.id }, r.2)
    | Except.error _ => ({ status := 400 }, db)
  else
    ({ status := 415 }, db)

/-- Embedding of Python truthiness of `request.args.get(k)` in
`list_products`: a query parameter is effective when present and non-empty. -/
def param (q : Option String) : Option String :=
  match q with
  | some s => if s == "" then none else some s
  | none => none

/-- Embedding of `list_products` (routes.py:78-112): first truthy filter
among name, category, available wins; an invalid (upper-cased) category
name yields 400; otherwise 200 with the serialized results. -/
def list_products (nameQ categoryQ availableQ : Option String) (db : DB) : Response :=
  match param nameQ with
  | some n => { status := 200, results := (db.find_by_name n).map serialize }
  | none =>
    match param categoryQ with
    | some c =>
      match categoryFromString (strUpper c) with
      | some cv => { status := 200, results := (db.find_by_category cv).map serialize }
      | none => { status := 400 }
    | none =>
      match param availableQ with
      | some a =>
        let is_available := strLower a == "true" || strLower a == "1" || strLower a == "t"
        { status := 200, results := (db.find_by_availability is_available).map serialize }
      | none => { status := 200, results := db.all.map serialize }

/-- Embedding of `get_products` (routes.py:118-130): 404 when absent, else
200 with the serialized product. -/
def get_products (pid : Nat) (db : DB) : Response :=
  match db.find pid with
  | none => { status := 404 }
  | some p => { status := 200, single := some (serialize p) }

/-- Embedding of `update_products` (routes.py:136-160): check content type,
404 when absent, deserialize (400 on validation error), force the id back to
the path id ("make sure they cannot change the id"), store, reply 200. -/
def update_products (ct : Option String) (pid : Nat) (body : Body) (db : DB) : Response × DB :=
  if check_content_type ct "application/json" then
    match db.find pid with
    | none => ({ status := 404 }, db)
    | some _ =>
      match deserialize body with
      | Except.ok pd =>
        let p : Product := ⟨pid, pd.name, pd.description, pd.price, pd.available, pd.category⟩
        ({ status := 200, single := some (serialize p) }, db.updateRow p)
      | Except.error _ => ({ status := 400 }, db)
  else
    ({ status := 415 }, db)

/-- Embedding of `delete_products` (routes.py:166-179): delete when present,
always 204. -/
def delete_products (pid : Nat) (db : DB) : Response × DB :=
  match db.find pid with
  | some _ => ({ status := 204 }, db.deleteRow pid)
  | none => ({ status := 204 }, db)

/-- A sample valid request body, used to instantiate theorems. -/
def bodySample : Body :=
  { name := some "Hat", description := some "A red fedora", price := some 6,
    available := some true, category := some "CLOTHS" }

/-- A sample store holding two rows, used to instantiate theorems. -/
def dbSample : DB :=
  ⟨[⟨1, "Hat", "A red fedora", 6, true, Category.CLOTHS⟩,
    ⟨2, "Shovel", "Sturdy shovel", 12, false, Category.TOOLS⟩], 3⟩

/-! Helper lemmas about the store. -/

/-- When no element of the first list matches, `find?` over an append looks
in the second list. -/
theorem find?_append_none {α : Type} (p : α → Bool) (l₁ l₂ : List α)
    (h : l₁.find? p = none) : (l₁ ++ l₂).find? p = l₂.find? p := by
  induction l₁ with
  | nil => simp
  | cons a t ih =>
    rcases hpa : p a with _ | _
    · rw [List.find?_cons_of_neg _ (by simp [hpa])] at h
      rw [List.cons_append, List.find?_cons_of_neg _ (by simp [hpa])]
      exact ih h
    · rw [List.find?_cons_of_pos _ hpa] at h
      exact absurd h (by simp)

/-- Finding by id in rows whose ids are all below `k`, extended with a fresh
row of id `k`, yields the fresh row. -/
theorem find?_rows_append (l : List Product) (k : Nat)
    (hall : ∀ q ∈ l, q.id < k) (p : Product) (hp : p.id = k) :
    (l ++ [p]).find? (fun q => q.id == k) = some p := by
  rw [find?_append_none]
  · simp [hp]
  · rw [List.find?_eq_none]
    intro q hq
    simp only [beq_iff_eq]
    exact Nat.ne_of_lt (hall q hq)

/-- Replacing the rows whose id is `pid` by a row of id `pid` makes lookup
return that row, provided some row with id `pid` was present. -/
theorem find?_map_replace (l : List Product) (pid : Nat) (pnew : Product)
    (hid : pnew.id = pid) (p0 : Product)
    (h : l.find? (fun q => q.id == pid) = some p0) :
    (l.map (fun q => if q.id == pid then pnew else q)).find?
      (fun q => q.id == pid) = some pnew := by
  induction l with
  | nil => simp at h
  | cons a t ih =>
    rcases hpa : (a.id == pid) with _ | _
    · rw [List.find?_cons_of_neg _ (by simp [hpa])] at h
      simp only [List.map_cons, hpa, Bool.false_eq_true, if_false]
      rw [List.find?_cons_of_neg _ (by simp [hpa])]
      exact ih h
    · simp only [List.map_cons, hpa, if_true]
      rw [List.find?_cons_of_pos _ (by simp [hid])]

/-- After filtering out the rows with id `pid`, lookup of `pid` fails. -/
theorem find?_filter_ne (l : List Product) (pid : Nat) :
    (l.filter (fun q => q.id != pid)).find? (fun q => q.id == pid) = none := by
  rw [List.find?_eq_none]
  intro x hx
  have hmem := (List.mem_filter.mp hx).2
  simp only [bne_iff_ne, ne_eq, decide_eq_true_eq] at hmem
  simp only [beq_iff_eq]
  exact hmem

/-- The DELETE handler always answers 204. -/
theorem delete_products_status (pid : Nat) (db : DB) :
    (delete_products pid db).1 = { status := 204 } := by
  unfold delete_products
  cases h : db.find pid <;> simp

/-- After the DELETE handler runs, no row with the deleted id remains. -/
theorem delete_products_gone (pid : Nat) (db : DB) :
    ((delete_products pid db).2).find pid = none := by
  unfold delete_products
  cases h : db.find pid with
  | none => simpa using h
  | some p =>
    simp only
    exact find?_filter_ne db.rows pid

/-- When the id is absent, the DELETE handler leaves the store unchanged. -/
theorem delete_products_of_none (pid : Nat) (d : DB) (h : d.find pid = none) :
    delete_products pid d = ({ status := 204 }, d) := by
  unfold delete_products
  rw [h]

/-- C3: DELETE /products/{id} always returns 204 whether or not a product
with that id exists; afterwards no product with that id exists, and a second
DELETE of the same id also returns 204 and changes nothing. -/
theorem delete_products_idempotent (pid : Nat) (db : DB) :
    (delete_products pid db).1.status = 204 ∧
    ((delete_products pid db).2).find pid = none ∧
    (delete_products pid ((delete_products pid db).2)).1.status = 204 ∧
    (delete_products pid ((delete_products pid db).2)).2 = (delete_products pid db).2 := by
  refine ⟨by rw [delete_products_status], delete_products_gone pid db,
    by rw [delete_products_status], ?_⟩
  rw [delete_products_of_none pid _ (delete_products_gone pid db)]

/-- GET of a present id answers 200 with the serialized row. -/
theorem get_products_of_find (pid : Nat) (d : DB) (p : Product)
    (h : d.find pid = some p) :
    get_products pid d = { status := 200, single := some (serialize p) } := by
  unfold get_products
  rw [h]

/-- The expected media type always passes the check. -/
theorem check_content_type_json :
    check_content_type (some "application/json") "application/json" = true := by
  simp [check_content_type]

/-- C8: POST /products and PUT /products/{id} answer 415 and leave the store
unchanged whenever the Content-Type header is missing or differs from
application/json, and a request whose Content-Type is exactly
application/json is never answered with 415. -/
theorem content_type_enforced (ct : Option String) (pid : Nat) (body : Body) (db : DB)
    (hct : ct ≠ some "application/json") :
    (create_products ct body db).1.status = 415 ∧
    (create_products ct body db).2 = db ∧
    (update_products ct pid body db).1.status = 415 ∧
    (update_products ct pid body db).2 = db ∧
    (create_products (some "application/json") body db).1.status ≠ 415 ∧
    (update_products (some "application/json") pid body db).1.status ≠ 415 := by
  have hcc : check_content_type ct "application/json" = false := by
    cases ct with
    | none => rfl
    | some s =>
      have hs : s ≠ "application/json" := fun h => hct (by rw [h])
      simp [check_content_type, hs]
  refine ⟨?_, ?_, ?_, ?_, ?_, ?_⟩
  · simp [create_products, hcc]
  · simp [create_products, hcc]
  · simp [update_products, hcc]
  · simp [update_products, hcc]
  · simp only [create_products, check_content_type_json, if_true]
    cases hd : deserialize body <;> simp
  · simp only [update_products, check_content_type_json, if_true]
    cases hf : db.find pid <;> cases hd : deserialize body <;> simp

/-- Witness for C8: a request with no Content-Type header is rejected with
415 and changes nothing, while application/json is not rejected. -/
theorem content_type_enforced_w :
    (create_products none bodySample dbSample).1.status = 415 ∧
    (create_products none bodySample dbSample).2 = dbSample ∧
    (update_products none 1 bodySample dbSample).1.status = 415 ∧
    (update_products none 1 bodySample dbSample).2 = dbSample ∧
    (create_products (some "application/json") bodySample dbSample).1.status ≠ 415 ∧
    (update_products (some "application/json") 1 bodySample dbSample).1.status ≠ 415 :=
  content_type_enforced none 1 bodySample dbSample (by simp)

/-- C5: GET /products/{id} answers 404 exactly when the id is absent, and
PUT /products/{id} with the correct content type answers 404 exactly when
the id is absent; in that case the store is unchanged. -/
theorem get_update_404_iff (pid : Nat) (db : DB) (body : Body) (ct : Option String)
    (hct : ct = some "application/json") :
    ((get_products pid db).status = 404 ↔ db.find pid = none) ∧
    ((update_products ct pid body db).1.status = 404 ↔ db.find pid = none) ∧
    (db.find pid = none → (update_products ct pid body db).2 = db) := by
  subst hct
  refine ⟨?_, ?_, ?_⟩
  · unfold get_products
    cases hf : db.find pid <;> simp [hf]
  · simp only [update_products, check_content_type_json, if_true]
    cases hf : db.find pid <;> cases hd : deserialize body <;> simp [hf, hd]
  · intro hf
    simp [update_products, check_content_type_json, hf]

/-- Witness for C5 at id 5 (absent from the sample store). -/
theorem get_update_404_iff_w :
    ((get_products 5 dbSample).status = 404 ↔ dbSample.find 5 = none) ∧
    ((update_products (some "application/json") 5 bodySample dbSample).1.status = 404 ↔
      dbSample.find 5 = none) ∧
    (dbSample.find 5 = none →
      (update_products (some "application/json") 5 bodySample dbSample).2 = dbSample) :=
  get_update_404_iff 5 dbSample bodySample (some "application/json") rfl

/-- A freshly appended row with the next storage id is found again under the
id its serialization reports. -/
theorem create_get_aux (db : DB) (hwf : db.wf) (pnew : Product)
    (hp : pnew.id = db.nextId) :
    (get_products (serialize pnew).id ⟨db.rows ++ [pnew], db.nextId + 1⟩).status = 200 ∧
    (get_products (serialize pnew).id ⟨db.rows ++ [pnew], db.nextId + 1⟩).single
      = some (serialize pnew) := by
  have hfind : DB.find ⟨db.rows ++ [pnew], db.nextId + 1⟩ (serialize pnew).id = some pnew := by
    have hid : (serialize pnew).id = pnew.id := rfl
    rw [hid, hp]
    exact find?_rows_append db.rows db.nextId hwf pnew hp
  rw [get_products_of_find _ _ _ hfind]
  exact ⟨rfl, rfl⟩

/-- C1: a successful POST /products (status 201) is immediately readable
back: GET with the id returned in the response body answers 200 and its
body is exactly the product body the create returned, so name, description,
price, available and category all round-trip. -/
theorem create_then_get_roundtrip (ct : Option String) (body : Body) (db : DB)
    (pj : ProductJson) (hwf : db.wf)
    (h201 : (create_products ct body db).1.status = 201)
    (hpj : (create_products ct body db).1.single = some pj) :
    (get_products pj.id (create_products ct body db).2).status = 200 ∧
    (get_products pj.id (create_products ct body db).2).single = some pj := by
  rcases hcc : check_content_type ct "application/json" with _ | _
  · simp [create_products, hcc] at h201
  · cases hd : deserialize body with
    | error e => simp [create_products, hcc, hd] at h201
    | ok pd =>
      have h1 : (create_products ct body db).1.single =
          some (serialize ⟨db.nextId, pd.name, pd.description, pd.price, pd.available,
            pd.category⟩) := by
        simp [create_products, hcc, hd, DB.create]
      rw [h1] at hpj
      obtain rfl := (Option.some.injEq _ _).mp hpj
      have key := create_get_aux db hwf
        ⟨db.nextId, pd.name, pd.description, pd.price, pd.available, pd.category⟩ rfl
      have h2 : (create_products ct body db).2 =
          ⟨db.rows ++ [⟨db.nextId, pd.name, pd.description, pd.price, pd.available, pd.category⟩],
            db.nextId + 1⟩ := by
        simp [create_products, hcc, hd, DB.create]
      rw [h2]
      exact key

/-- Witness for C1: create against the sample store, then read it back. -/
theorem create_then_get_roundtrip_w :
    (get_products (serialize ⟨3, "Hat", "A red fedora", 6, true, Category.CLOTHS⟩).id
      (create_products (some "application/json") bodySample dbSample).2).status = 200 ∧
    (get_products (serialize ⟨3, "Hat", "A red fedora", 6, true, Category.CLOTHS⟩).id
      (create_products (some "application/json") bodySample dbSample).2).single =
      some (serialize ⟨3, "Hat", "A red fedora", 6, true, Category.CLOTHS⟩) :=
  create_then_get_roundtrip (some "application/json") bodySample dbSample
    (serialize ⟨3, "Hat", "A red fedora", 6, true, Category.CLOTHS⟩) (by decide) rfl rfl

/-- C2: PUT /products/{id} on a present id with a valid body answers 200 and
stores a product whose id is the path id (whatever id the body carried)
and whose other fields are exactly the validated body fields. -/
theorem update_preserves_id (ct : Option String) (pid : Nat) (body : Body) (db : DB)
    (p0 : Product) (pd : ProductData)
    (hct : ct = some "application/json")
    (hfind : db.find pid = some p0)
    (hbody : deserialize body = Except.ok pd) :
    (update_products ct pid body db).1.status = 200 ∧
    (update_products ct pid body db).1.single =
      some (serialize ⟨pid, pd.name, pd.description, pd.price, pd.available, pd.category⟩) ∧
    ((update_products ct pid body db).2).find pid =
      some ⟨pid, pd.name, pd.description, pd.price, pd.available, pd.category⟩ := by
  subst hct
  refine ⟨?_, ?_, ?_⟩
  · simp [update_products, check_content_type_json, hfind, hbody]
  · simp [update_products, check_content_type_json, hfind, hbody]
  · have h2 : (update_products (some "application/json") pid body db).2 =
        db.updateRow ⟨pid, pd.name, pd.description, pd.price, pd.available, pd.category⟩ := by
      simp [update_products, check_content_type_json, hfind, hbody]
    rw [h2]
    exact find?_map_replace db.rows pid _ rfl p0 hfind

/-- Witness for C2: update product 2 of the sample store with a body that
carries the foreign id 99; the stored id stays 2. -/
theorem update_preserves_id_w :
    (update_products (some "application/json") 2
        { bodySample with ident := some 99 } dbSample).1.status = 200 ∧
    (update_products (some "application/json") 2
        { bodySample with ident := some 99 } dbSample).1.single =
      some (serialize ⟨2, "Hat", "A red fedora", 6, true, Category.CLOTHS⟩) ∧
    ((update_products (some "application/json") 2
        { bodySample with ident := some 99 } dbSample).2).find 2 =
      some ⟨2, "Hat", "A red fedora", 6, true, Category.CLOTHS⟩ :=
  update_preserves_id (some "application/json") 2 { bodySample with ident := some 99 }
    dbSample ⟨2, "Shovel", "Sturdy shovel", 12, false, Category.TOOLS⟩
    ⟨"Hat", "A red fedora", 6, true, Category.CLOTHS⟩ rfl rfl rfl

/-- C6: POST /products with Content-Type application/json and a body passing
validation answers 201, carries a Location header referring to the new
product's id, and that id is assigned by storage (`nextId`), never taken
from the body; a body failing validation answers 400 and leaves the store
unchanged. -/
theorem create_assigns_storage_id (ct : Option String) (body bad : Body) (db : DB)
    (pd : ProductData) (e : String)
    (hct : ct = some "application/json")
    (hok : deserialize body = Except.ok pd)
    (hbad : deserialize bad = Except.error e) :
    (create_products ct body db).1.status = 201 ∧
    (create_products ct body db).1.location = some db.nextId ∧
    (create_products ct body db).1.single =
      some (serialize ⟨db.nextId, pd.name, pd.description, pd.price, pd.available, pd.category⟩) ∧
    ((create_products ct body db).2).rows =
      db.rows ++ [⟨db.nextId, pd.name, pd.description, pd.price, pd.available, pd.category⟩] ∧
    (create_products ct bad db).1.status = 400 ∧
    (create_products ct bad db).2 = db := by
  subst hct
  refine ⟨?_, ?_, ?_, ?_, ?_, ?_⟩ <;>
    simp [create_products, check_content_type_json, hok, hbad, DB.create]

/-- Witness for C6: the sample body is valid (and any id it may carry is
ignored in favor of the storage id 3); the empty body fails validation. -/
theorem create_assigns_storage_id_w :
    (create_products (some "application/json") { bodySample with ident := some 41 } dbSample).1.status = 201 ∧
    (create_products (some "application/json") { bodySample with ident := some 41 } dbSample).1.location = some dbSample.nextId ∧
    (create_products (some "application/json") { bodySample with ident := some 41 } dbSample).1.single =
      some (serialize ⟨dbSample.nextId, "Hat", "A red fedora", 6, true, Category.CLOTHS⟩) ∧
    ((create_products (some "application/json") { bodySample with ident := some 41 } dbSample).2).rows =
      dbSample.rows ++ [⟨dbSample.nextId, "Hat", "A red fedora", 6, true, Category.CLOTHS⟩] ∧
    (create_products (some "application/json") {} dbSample).1.status = 400 ∧
    (create_products (some "application/json") {} dbSample).2 = dbSample :=
  create_assigns_storage_id (some "application/json") { bodySample with ident := some 41 } {}
    dbSample ⟨"Hat", "A red fedora", 6, true, Category.CLOTHS⟩
    "Invalid product: missing field" rfl rfl rfl

/-- C7: GET /products?name=v with non-empty v answers 200 and its body is
exactly the serialization of the stored products whose name equals v, so a
product with a different name never appears. -/
theorem list_by_name_exact_match (v : String) (catQ availQ : Option String) (db : DB)
    (hv : v ≠ "") :
    (list_products (some v) catQ availQ db).status = 200 ∧
    (list_products (some v) catQ availQ db).results
      = (db.rows.filter (fun p => p.name == v)).map serialize ∧
    ∀ pj ∈ (list_products (some v) catQ availQ db).results, pj.name = v := by
  have hp : param (some v) = some v := by simp [param, hv]
  have hl : list_products (some v) catQ availQ db =
      { status := 200, results := (db.find_by_name v).map serialize } := by
    unfold list_products
    rw [hp]
  refine ⟨by rw [hl], by rw [hl]; rfl, ?_⟩
  intro pj hpj
  rw [hl] at hpj
  simp only [DB.find_by_name, List.mem_map, List.mem_filter] at hpj
  obtain ⟨p, ⟨hpmem, hpname⟩, rfl⟩ := hpj
  simpa [serialize] using hpname

/-- Witness for C7: filtering the sample store by the name Hat (the other
query parameters are present but lose to the name filter). -/
theorem list_by_name_exact_match_w :
    (list_products (some "Hat") (some "badcat") (some "x") dbSample).status = 200 ∧
    (list_products (some "Hat") (some "badcat") (some "x") dbSample).results
      = (dbSample.rows.filter (fun p => p.name == "Hat")).map serialize ∧
    ∀ pj ∈ (list_products (some "Hat") (some "badcat") (some "x") dbSample).results,
      pj.name = "Hat" :=
  list_by_name_exact_match "Hat" (some "badcat") (some "x") dbSample (by simp)

/-- C9: GET /products?available=v with a non-empty v always answers 200: v
parses to true exactly when its lower-casing is "true", "1" or "t" (any
other string parses to false), and the body lists the products with that
availability. -/
theorem list_by_availability_parsing (v : String) (db : DB) (hv : v ≠ "") :
    (list_products none none (some v) db).status = 200 ∧
    (list_products none none (some v) db).results
      = (db.rows.filter (fun p =>
          p.available == (strLower v == "true" || strLower v == "1" || strLower v == "t"))).map
        serialize ∧
    ∀ pj ∈ (list_products none none (some v) db).results,
      (pj.available = true ↔ (strLower v = "true" ∨ strLower v = "1" ∨ strLower v = "t")) := by
  have hp : param (some v) = some v := by simp [param, hv]
  have hl : list_products none none (some v) db =
      { status := 200,
        results := (db.find_by_availability
          (strLower v == "true" || strLower v == "1" || strLower v == "t")).map serialize } := by
    unfold list_products
    rw [hp]
    rfl
  refine ⟨by rw [hl], by rw [hl]; rfl, ?_⟩
  intro pj hpj
  rw [hl] at hpj
  simp only [DB.find_by_availability, List.mem_map, List.mem_filter] at hpj
  obtain ⟨p, ⟨hpmem, hpav⟩, rfl⟩ := hpj
  rw [beq_iff_eq] at hpav
  rw [show (serialize p).available = p.available from rfl, hpav]
  simp [or_assoc]

/-- Witness for C9: the string yes is not an error: it parses to false and
the request answers 200 with the unavailable products. -/
theorem list_by_availability_parsing_w :
    (list_products none none (some "yes") dbSample).status = 200 ∧
    (list_products none none (some "yes") dbSample).results
      = (dbSample.rows.filter (fun p =>
          p.available ==
            (strLower "yes" == "true" || strLower "yes" == "1" || strLower "yes" == "t"))).map
        serialize ∧
    ∀ pj ∈ (list_products none none (some "yes") dbSample).results,
      (pj.available = true ↔
        (strLower "yes" = "true" ∨ strLower "yes" = "1" ∨ strLower "yes" = "t")) :=
  list_by_availability_parsing "yes" dbSample (by simp)

/-- C10: the list endpoint applies at most one filter, name before category
before available; an invalid category paired with a non-empty name still
answers 200; an empty-string parameter counts as absent; and with no
effective filter every product is returned. -/
theorem filter_precedence (n c : String) (nameQ catQ availQ : Option String) (db : DB)
    (hn : n ≠ "") (hc : c ≠ "") :
    (list_products (some n) catQ availQ db = list_products (some n) none none db) ∧
    (list_products none (some c) availQ db = list_products none (some c) none db) ∧
    (list_products (some "") catQ availQ db = list_products none catQ availQ db) ∧
    (list_products nameQ (some "") availQ db = list_products nameQ none availQ db) ∧
    (list_products nameQ catQ (some "") db = list_products nameQ catQ none db) ∧
    (categoryFromString (strUpper c) = none →
      (list_products (some n) (some c) availQ db).status = 200) ∧
    (list_products none none none db = { status := 200, results := db.all.map serialize }) := by
  have hpn : param (some n) = some n := by simp [param, hn]
  have hpc : param (some c) = some c := by simp [param, hc]
  have hpe : param (some "") = none := by simp [param]
  refine ⟨?_, ?_, ?_, ?_, ?_, ?_, ?_⟩
  · unfold list_products
    rw [hpn]
  · unfold list_products
    rw [hpc]
  · unfold list_products
    rw [hpe]
    rfl
  · unfold list_products
    rw [hpe]
    rfl
  · unfold list_products
    rw [hpe]
    rfl
  · intro hinv
    unfold list_products
    rw [hpn]
  · rfl

/-- Witness for C10 with name Hat, the invalid category SPORTS, and assorted
other parameters over the sample store. -/
theorem filter_precedence_w :
    (list_products (some "Hat") (some "FOOD") (some "true") dbSample
      = list_products (some "Hat") none none dbSample) ∧
    (list_products none (some "SPORTS") (some "true") dbSample
      = list_products none (some "SPORTS") none dbSample) ∧
    (list_products (some "") (some "FOOD") (some "true") dbSample
      = list_products none (some "FOOD") (some "true") dbSample) ∧
    (list_products none (some "") (some "true") dbSample
      = list_products none none (some "true") dbSample) ∧
    (list_products none (some "FOOD") (some "") dbSample
      = list_products none (some "FOOD") none dbSample) ∧
    (categoryFromString (strUpper "SPORTS") = none →
      (list_products (some "Hat") (some "SPORTS") (some "true") dbSample).status = 200) ∧
    (list_products none none none dbSample
      = { status := 200, results := dbSample.all.map serialize }) :=
  filter_precedence "Hat" "SPORTS" none (some "FOOD") (some "true") dbSample
    (by simp) (by simp)

/-- Counterexample to C4 as stated: the empty string and the lower-case
string tools are not members of the category enumeration (the lookup the
code itself performs rejects them unchanged), yet the requests
GET /products?category= and GET /products?category=tools answer 200, not
400: the empty value is treated as no filter and the lookup upper-cases the
value first. -/
theorem list_by_category_cex :
    categoryFromString "" = none ∧
    (list_products none (some "") none dbSample).status = 200 ∧
    (list_products none (some "") none dbSample).status ≠ 400 ∧
    categoryFromString "tools" = none ∧
    (list_products none (some "tools") none dbSample).status = 200 :=
  ⟨rfl, rfl, by decide, rfl, rfl⟩

/-- C4 as amended: for a non-empty value, GET /products?category=value
answers 400 when the upper-cased value is not a member name of the category
enumeration, and answers 200 listing exactly the products of that category
when the upper-cased value is a member name. -/
theorem list_by_category_amended (v w : String) (db : DB) (cv : Category)
    (hv : v ≠ "") (hw : w ≠ "")
    (hinv : categoryFromString (strUpper v) = none)
    (hval : categoryFromString (strUpper w) = some cv) :
    (list_products none (some v) none db).status = 400 ∧
    (list_products none (some w) none db).status = 200 ∧
    (list_products none (some w) none db).results
      = (db.find_by_category cv).map serialize ∧
    ∀ pj ∈ (list_products none (some w) none db).results, pj.category = cv.label := by
  have hpv : param (some v) = some v := by simp [param, hv]
  have hpw : param (some w) = some w := by simp [param, hw]
  have hlv : list_products none (some v) none db = { status := 400 } := by
    unfold list_products
    rw [hpv]
    simp only [hinv]
    rfl
  have hlw : list_products none (some w) none db =
      { status := 200, results := (db.find_by_category cv).map serialize } := by
    unfold list_products
    rw [hpw]
    simp only [hval]
    rfl
  refine ⟨by rw [hlv], by rw [hlw], by rw [hlw], ?_⟩
  intro pj hpj
  rw [hlw] at hpj
  simp only [DB.find_by_category, List.mem_map, List.mem_filter] at hpj
  obtain ⟨p, ⟨hpmem, hpcat⟩, rfl⟩ := hpj
  rw [beq_iff_eq] at hpcat
  rw [show (serialize p).category = p.category.label from rfl, hpcat]

/-- Witness for the amended C4: SPORTS is rejected with 400 while the
lower-case value tools names the TOOLS category and lists only tools. -/
theorem list_by_category_amended_w :
    (list_products none (some "SPORTS") none dbSample).status = 400 ∧
    (list_products none (some "tools") none dbSample).status = 200 ∧
    (list_products none (some "tools") none dbSample).results
      = (dbSample.find_by_category Category.TOOLS).map serialize ∧
    ∀ pj ∈ (list_products none (some "tools") none dbSample).results,
      pj.category = Category.TOOLS.label :=
  list_by_category_amended "SPORTS" "tools" dbSample Category.TOOLS
    (by simp) (by simp) rfl rfl

end ProductService
